import Mathlib

/-!
Verification development for the placement-platform core: a shallow
embedding of the stage-submission scoring pipeline (pass thresholds, stage
progression, track assignment, detailed score evaluation), the
content-based question categorizer, and the deterministic fallback builder
for the AI field analysis, together with theorems settling the behavioural
claims about them.

Machine numbers of the source are JavaScript doubles; all arithmetic the
claims touch is exact on the integers and small rationals involved, so
scores and percentages are embedded as `Nat`/`ℤ`/`ℚ`.  JavaScript
truthiness idioms (`x || d` on strings, `p || 0` on numbers) are embedded
explicitly by the `js*` helpers below.
-/

/-- JavaScript `Math.round` on rationals: half-way cases round toward
positive infinity, so `Math.round x = ⌊x + 1/2⌋`. -/
def jsRound (x : ℚ) : ℤ := ⌊x + 1 / 2⌋

/-- JavaScript `s || d` for an optionally-present string `s`: both a
missing value and the empty string are falsy and yield the default. -/
def jsStrOr (s : Option String) (d : String) : String :=
  match s with
  | some t => if t = "" then d else t
  | none => d

/-- JavaScript `p || 0` for a (present) numeric value: `0` is falsy and is
replaced by the default `0`, so on rationals this is the identity. -/
def jsNumOrZero (p : ℚ) : ℚ := if p = 0 then 0 else p

/-! ## StagePolicy: `calculatePassStatus`, `determineNextStage`, `isLastStage` -/

/-- `calculatePassStatus(company, stageName, percentage, score)` from the
stage-submission route: company- and stage-specific pass thresholds, and
`false` for every other company/stage combination. -/
def calculatePassStatus (company stageName : String) (percentage score : ℚ) : Bool :=
  if company = "TCS" then
    if stageName = "foundation" then decide (60 ≤ percentage)
    else if stageName = "advanced" then decide (65 ≤ percentage)
    else if stageName = "coding" then decide (2 ≤ score)
    else false
  else if company = "Wipro" then
    if stageName = "aptitude" then decide (65 ≤ percentage)
    else if stageName = "essay" then decide (70 ≤ percentage)
    else if stageName = "coding" then decide (1 ≤ score)
    else false
  else false

/-- The TCS stage pipeline, in order. -/
def tcsStages : List String := ["foundation", "advanced", "coding", "interview", "completed"]

/-- The Wipro stage pipeline, in order. -/
def wiproStages : List String := ["aptitude", "essay", "coding", "voice", "interview", "completed"]

/-- `stages[stages.indexOf(cur) + 1] || 'completed'`: JavaScript `indexOf`
yields `-1` when `cur` is absent, so the successor index is `0` in that
case; an out-of-range read yields `undefined`, which (like an empty
string) is falsy and falls back to `"completed"`. -/
def jsNextStage (stages : List String) (cur : String) : String :=
  match stages.findIdx? (fun x => x == cur) with
  | some i => jsStrOr stages[i + 1]? "completed"
  | none => jsStrOr stages[0]? "completed"

/-- `determineNextStage(company, currentStage, isPassed)` from the
stage-submission route. -/
def determineNextStage (company currentStage : String) (isPassed : Bool) : String :=
  if !isPassed then currentStage
  else if company = "TCS" then jsNextStage tcsStages currentStage
  else if company = "Wipro" then jsNextStage wiproStages currentStage
  else "completed"

/-- `isLastStage(company, stage)` from the stage-submission route. -/
def isLastStage (company stage : String) : Bool :=
  if company = "TCS" then stage == "interview" || stage == "completed"
  else if company = "Wipro" then stage == "interview" || stage == "completed"
  else false

/-! ## TrackAssigner: `assignTrack` -/

/-- The fields of a persisted assessment stage that `assignTrack` reads. -/
structure StageResult where
  stageName : String
  percentage : ℚ
deriving DecidableEq

/-- `assignTrack(company, stages)` from the stage-submission route,
including the `percentage || 0` guards of the source. -/
def assignTrack (company : String) (stages : List StageResult) : String :=
  if company = "TCS" then
    match stages.find? (fun s => s.stageName == "coding") with
    | some codingStage =>
        let codingPercentage := jsNumOrZero codingStage.percentage
        if 83 ≤ codingPercentage then "Digital"
        else if 67 ≤ codingPercentage then "Ninja"
        else "Ninja"
    | none => "Ninja"
  else if company = "Wipro" then
    let totalPercentage := (stages.map (fun s => jsNumOrZero s.percentage)).sum
    let avgPercentage := totalPercentage / (stages.length : ℚ)
    if 80 ≤ avgPercentage then "Turbo"
    else if 70 ≤ avgPercentage then "Elite"
    else "Elite"
  else "Standard"

/-- Track assignment as the specification words it: TCS looks at the
coding stage (`Digital` from 83%, else `Ninja`, also with no coding stage);
Wipro looks at the average percentage over all given stages (`Turbo` from
80%, else `Elite`); any other company gets `Standard`. -/
def assignTrackSpec (company : String) (stages : List StageResult) : String :=
  if company = "TCS" then
    match stages.find? (fun s => s.stageName == "coding") with
    | some codingStage => if 83 ≤ codingStage.percentage then "Digital" else "Ninja"
    | none => "Ninja"
  else if company = "Wipro" then
    if 80 ≤ (stages.map (fun s => s.percentage)).sum / (stages.length : ℚ) then "Turbo"
    else "Elite"
  else "Standard"

/-! ## ScoreEvaluator: `calculateDetailedScore` and the stored stage percentage -/

/-- An answer option of a stored question. -/
structure AnswerOption where
  text : String
  isCorrect : Bool
deriving DecidableEq

/-- A stored question: `category` is nullable in the database. -/
structure Question where
  id : String
  text : String
  category : Option String
  options : List AnswerOption
deriving DecidableEq

/-- An entry of the `wrongQuestions` list built by `calculateDetailedScore`. -/
structure WrongQuestion where
  id : String
  text : String
  category : String
  userAnswer : String
  correctAnswer : String
deriving DecidableEq

/-- A finalized per-category entry of the breakdown:
`{correct, total, percentage}`. -/
structure CategoryStat where
  correct : Nat
  total : Nat
  percentage : ℤ
deriving DecidableEq

/-- The result record of `calculateDetailedScore`.  The category breakdown
is a JavaScript object whose keys enumerate in insertion order, embedded
as an association list ordered by first occurrence. -/
structure ScoreData where
  totalCorrect : Nat
  totalQuestions : Nat
  categoryBreakdown : List (String × CategoryStat)
  wrongQuestions : List WrongQuestion
deriving DecidableEq

/-- The submitted answer map (question id to selected option text). -/
abbrev Answers := List (String × String)

/-- `answers[question.id]`: map lookup, `none` when no answer was
submitted for the question. -/
def lookupAnswer (answers : Answers) (qid : String) : Option String :=
  (answers.find? (fun kv => kv.1 == qid)).map (fun kv => kv.2)

/-- `question.category || 'General'`. -/
def questionCategory (q : Question) : String := jsStrOr q.category "General"

/-- `question.options.find(opt => opt.isCorrect)`. -/
def firstCorrectOption (q : Question) : Option AnswerOption :=
  q.options.find? (fun opt => opt.isCorrect)

/-- `correctOption && userAnswer === correctOption.text`: the question
counts as correct exactly when a correct option exists and the submitted
answer text equals that option's text. -/
def answerIsCorrect (answers : Answers) (q : Question) : Bool :=
  match firstCorrectOption q with
  | some opt => lookupAnswer answers q.id == some opt.text
  | none => false

/-- The running `(correct, total)` counters per category: create the entry
on first sight, then bump `total` and, on a correct answer, `correct`. -/
def bumpCategory (bd : List (String × Nat × Nat)) (cat : String) (corr : Bool) :
    List (String × Nat × Nat) :=
  match bd with
  | [] => [(cat, ((if corr then 1 else 0), 1))]
  | (c, k, t) :: rest =>
      if c = cat then (c, (k + (if corr then 1 else 0), t + 1)) :: rest
      else (c, (k, t)) :: bumpCategory rest cat corr

/-- The `wrongQuestions` entry pushed for a question that was not
answered correctly, with the JavaScript `||` defaults of the source. -/
def wrongEntry (answers : Answers) (q : Question) : WrongQuestion :=
  { id := q.id
    text := q.text
    category := questionCategory q
    userAnswer := jsStrOr (lookupAnswer answers q.id) "Not answered"
    correctAnswer := jsStrOr ((firstCorrectOption q).map (fun o => o.text)) "Unknown" }

/-- The `for (const question of questions)` loop of
`calculateDetailedScore`, with its three accumulators. -/
def scoreLoop (answers : Answers) (tc : Nat) (bd : List (String × Nat × Nat))
    (ws : List WrongQuestion) : List Question → Nat × List (String × Nat × Nat) × List WrongQuestion
  | [] => (tc, bd, ws)
  | q :: qs =>
      let corr := answerIsCorrect answers q
      scoreLoop answers (if corr then tc + 1 else tc)
        (bumpCategory bd (questionCategory q) corr)
        (if corr then ws else ws ++ [wrongEntry answers q]) qs

/-- The final per-category pass:
`percentage = total > 0 ? Math.round((correct / total) * 100) : 0`. -/
def finalizeCategory (e : String × Nat × Nat) : String × CategoryStat :=
  (e.1,
    { correct := e.2.1
      total := e.2.2
      percentage := if 0 < e.2.2 then jsRound ((e.2.1 : ℚ) / (e.2.2 : ℚ) * 100) else 0 })

/-- `calculateDetailedScore(answers, questions)` from the stage-submission
route. -/
def calculateDetailedScore (answers : Answers) (questions : List Question) : ScoreData :=
  let st := scoreLoop answers 0 [] [] questions
  { totalCorrect := st.1
    totalQuestions := questions.length
    categoryBreakdown := st.2.1.map finalizeCategory
    wrongQuestions := st.2.2 }

/-- `percentage = actualTotal > 0 ? (actualScore / actualTotal) * 100 : 0`
from the stage-submission route: the value stored on the assessment
stage. -/
def stagePercentage (score total : Nat) : ℚ :=
  if 0 < total then ((score : ℚ) / (total : ℚ)) * 100 else 0

/-- The percentage persisted for a stage submission, as computed by the
route from the detailed score of the submitted answers. -/
def storedStagePercentage (answers : Answers) (questions : List Question) : ℚ :=
  stagePercentage (calculateDetailedScore answers questions).totalCorrect
    (calculateDetailedScore answers questions).totalQuestions

/-- A concrete stage submission: three questions, one answered correctly,
the other two unanswered. -/
def sampleAnswers : Answers := [("q1", "4")]

/-- The three stored questions of the concrete stage submission. -/
def sampleQuestions : List Question :=
  [{ id := "q1", text := "two plus two", category := some "Quant",
     options := [{ text := "4", isCorrect := true }, { text := "5", isCorrect := false }] },
   { id := "q2", text := "three plus three", category := some "Quant",
     options := [{ text := "6", isCorrect := true }, { text := "7", isCorrect := false }] },
   { id := "q3", text := "largest planet", category := none,
     options := [{ text := "Jupiter", isCorrect := true }, { text := "Mars", isCorrect := false }] }]

/-! ## QuestionCategorizer: `categorizeQuestionByContent` -/

/-- JavaScript regex word characters (`\w`): ASCII letters, digits and
underscore. -/
def isWordChar (c : Char) : Bool := c.isAlphanum || c = '_'

/-- Strip `kw` as a literal prefix of `cs`, returning the remainder. -/
def stripPrefixChars : List Char → List Char → Option (List Char)
  | [], cs => some cs
  | _ :: _, [] => none
  | k :: ks, c :: cs => if k = c then stripPrefixChars ks cs else none

/-- Match one keyword of a `\b(kw1|kw2|...)\b` alternation at the start of
`cs`: the keyword must be a literal prefix and the trailing `\b` must
hold, i.e. the word-character statuses of the keyword's last character and
of the following character (end of input counts as non-word) differ. -/
def kwMatch (kw : List Char) (cs : List Char) : Option (List Char) :=
  match stripPrefixChars kw cs with
  | some rest =>
      match kw.getLast? with
      | some l =>
          let nextIsWord := match rest with
            | [] => false
            | c :: _ => isWordChar c
          if isWordChar l != nextIsWord then some rest else none
      | none => none
  | none => none

/-- Try the alternatives of the alternation in order at the current
position (regex alternation is ordered); on success return the last
character consumed and the remaining input. -/
def firstKwMatch (kws : List (List Char)) (cs : List Char) : Option (Char × List Char) :=
  match kws with
  | [] => none
  | kw :: rest =>
      match kwMatch kw cs with
      | some remaining =>
          match kw.getLast? with
          | some l => some (l, remaining)
          | none => firstKwMatch rest cs
      | none => firstKwMatch rest cs

/-- Global regex scan (`text.match(/.../g).length`): walk the input left
to right; at each position where the leading `\b` can hold (previous
character non-word or start of input — every alternative starts with a
word character) try the alternation, consume the match and continue after
it, otherwise advance one character.  `fuel` bounds the recursion and is
instantiated with the input length. -/
def scanCount (kws : List (List Char)) : Nat → Bool → List Char → Nat
  | 0, _, _ => 0
  | _ + 1, _, [] => 0
  | fuel + 1, prevWord, c :: cs =>
      if !prevWord then
        match firstKwMatch kws (c :: cs) with
        | some (l, remaining) => 1 + scanCount kws fuel (isWordChar l) remaining
        | none => scanCount kws fuel (isWordChar c) cs
      else scanCount kws fuel (isWordChar c) cs

/-- `(text.match(keywordRegex) || []).length` for one keyword list. -/
def countKeywordMatches (kws : List String) (text : String) : Nat :=
  scanCount (kws.map String.toList) text.toList.length false text.toList

/-- The quantitative-aptitude keyword alternation, in source order
(including its duplicated `calculate`). -/
def quantKeywords : List String :=
  ["find", "calculate", "solve", "percentage", "profit", "loss", "ratio", "proportion",
   "average", "sum", "product", "equation", "number", "digit", "integer", "fraction",
   "decimal", "prime", "even", "odd", "square", "cube", "root", "angle", "triangle",
   "circle", "area", "volume", "length", "distance", "speed", "time", "rate", "multiply",
   "divide", "add", "subtract", "money", "cost", "price", "value", "amount", "count",
   "total", "calculate"]

/-- The logical-reasoning keyword alternation, in source order (including
its duplicated `arrange` and `similar`). -/
def logicKeywords : List String :=
  ["logic", "sequence", "pattern", "series", "analogy", "similar", "opposite", "code",
   "decode", "arrange", "order", "direction", "position", "relationship", "syllogism",
   "inference", "conclusion", "puzzle", "cryptic", "arrange", "next", "follows",
   "similar", "statement", "true", "false"]

/-- The verbal/English keyword alternation, in source order (including its
duplicated `sentence`). -/
def verbalKeywords : List String :=
  ["grammar", "tense", "subject", "verb", "pronoun", "article", "preposition",
   "conjunction", "spelling", "vocabulary", "synonym", "antonym", "passage",
   "comprehension", "sentence", "paragraph", "meaning", "usage", "english", "word",
   "phrase", "language", "literature", "idiom", "fill", "blank", "error", "correct",
   "best", "sentence", "complete"]

/-- The programming/coding keyword alternation, in source order. -/
def codingKeywords : List String :=
  ["code", "program", "function", "variable", "algorithm", "array", "loop", "condition",
   "output", "input", "compile", "syntax", "error", "debug", "java", "python", "cpp",
   "c++", "javascript", "database", "query", "sql", "html", "css", "write", "print",
   "return", "class", "method", "object"]

/-- The data-interpretation keyword alternation, in source order. -/
def dataKeywords : List String :=
  ["table", "graph", "chart", "bar", "pie", "diagram", "data", "statistics",
   "percentage", "ratio", "comparison", "analysis", "interpretation", "figure", "row",
   "column", "value", "shown", "increase", "decrease", "maximum", "minimum"]

/-- Whether `pat` is a literal prefix of `cs`. -/
def charsHavePrefix (pat cs : List Char) : Bool :=
  match pat, cs with
  | [], _ => true
  | _ :: _, [] => false
  | p :: ps, c :: cs => p == c && charsHavePrefix ps cs

/-- Whether `pat` occurs as a contiguous run in `cs`. -/
def charsContain (pat : List Char) : List Char → Bool
  | [] => charsHavePrefix pat []
  | c :: cs => charsHavePrefix pat (c :: cs) || charsContain pat cs

/-- JavaScript `s.includes(sub)`: literal substring test. -/
def strIncludes (s sub : String) : Bool := charsContain sub.data s.data

/-- JavaScript `questionText.toLowerCase()` on the ASCII texts the
categorizer handles: lower-case every character. -/
def strToLower (s : String) : String := ⟨s.data.map Char.toLower⟩

/-- The `scores` record of `categorizeQuestionByContent` as an ordered
list of (category, score) pairs: each keyword match is weighted by the
constant factor 2, and `General Reasoning` never receives a score. -/
def categoryScores (text : String) : List (String × Nat) :=
  [("Quantitative Aptitude", 2 * countKeywordMatches quantKeywords text),
   ("Logical Reasoning", 2 * countKeywordMatches logicKeywords text),
   ("Verbal & Reading", 2 * countKeywordMatches verbalKeywords text),
   ("Programming/Coding", 2 * countKeywordMatches codingKeywords text),
   ("Data Interpretation", 2 * countKeywordMatches dataKeywords text),
   ("General Reasoning", 0)]

/-- The max-finding loop over `Object.entries(scores)`: strictly greater
scores win, ties keep the earlier category, and the running maximum
starts at `(0, "General Knowledge")`. -/
def pickMax (scores : List (String × Nat)) : Nat × String :=
  scores.foldl (fun acc p => if acc.1 < p.2 then (p.2, p.1) else acc) (0, "General Knowledge")

/-- `categorizeQuestionByContent(questionText)` from the AI/summary
module: empty text short-circuits to `General Knowledge`; otherwise score
the lowercased text against the keyword lists, pick the strictly highest
score, and fall back to the length/substring heuristics when every score
is zero. -/
def categorizeQuestionByContent (questionText : String) : String :=
  if questionText = "" then "General Knowledge"
  else
    let text := strToLower questionText
    let ms := pickMax (categoryScores text)
    if ms.1 = 0 then
      if text.length < 100 then "General Reasoning"
      else if strIncludes text "passage" || strIncludes text "read" then "Verbal & Reading"
      else "General Knowledge"
    else ms.2

/-! ## FeedbackSummaryBuilder: `generateMockCategoryWiseAnalysis` and
`generateDetailedFieldAnalysis` -/

/-- The per-question record pushed into `categorizedWrongQuestions` (the
stored category field is dropped there). -/
structure WrongQDetail where
  id : String
  text : String
  userAnswer : String
  correctAnswer : String
deriving DecidableEq

/-- A `categoryStats` entry: `{total, wrong, correct, percentage}`. -/
structure MockCategoryStat where
  total : Nat
  wrong : Nat
  correct : Nat
  percentage : ℤ
deriving DecidableEq

/-- The `testData` argument of `generateDetailedFieldAnalysis`. -/
structure FieldAnalysisInput where
  score : ℤ
  totalQuestions : Nat
  correct : ℤ
  wrong : ℤ
  categoryBreakdown : List (String × CategoryStat)
  wrongQuestions : List WrongQuestion
deriving DecidableEq

/-- Append a wrong-question detail to its category's group, creating the
group at the end on first sight (JavaScript object insertion order). -/
def pushWrongDetail (groups : List (String × List WrongQDetail)) (cat : String)
    (w : WrongQDetail) : List (String × List WrongQDetail) :=
  match groups with
  | [] => [(cat, [w])]
  | (c, l) :: rest =>
      if c = cat then (c, l ++ [w]) :: rest else (c, l) :: pushWrongDetail rest cat w

/-- The `categorizedWrongQuestions` grouping: every wrong question is
re-categorized from its text content. -/
def categorizedWrongQuestions (wqs : List WrongQuestion) : List (String × List WrongQDetail) :=
  wqs.foldl
    (fun groups q =>
      pushWrongDetail groups (categorizeQuestionByContent q.text)
        { id := q.id, text := q.text, userAnswer := q.userAnswer,
          correctAnswer := q.correctAnswer })
    []

/-- Bump the wrong-answer counter of a category, creating it at the end
on first sight. -/
def bumpWrongCount (st : List (String × Nat)) (cat : String) : List (String × Nat) :=
  match st with
  | [] => [(cat, 1)]
  | (c, n) :: rest => if c = cat then (c, n + 1) :: rest else (c, n) :: bumpWrongCount rest cat

/-- The wrong-answer counts per re-derived category. -/
def wrongCountsByCategory (wqs : List WrongQuestion) : List (String × Nat) :=
  wqs.foldl (fun st q => bumpWrongCount st (categorizeQuestionByContent q.text)) []

/-- JavaScript `Math.ceil(a / b)` on naturals; the source only evaluates
it with a nonzero divisor (the degenerate `b = 0` value is never used). -/
def ceilDiv (a b : Nat) : Nat := if b = 0 then 0 else (a + b - 1) / b

/-- The finalized `categoryStats`: per-category totals are estimated as
`Math.ceil(totalQuestions / distinctCategoriesSeen)`, corrects as the
(clamped) difference, and the percentage is `Math.round`ed.  A zero
estimated total cannot arise from consistent inputs; rational division by
zero makes the percentage 0 there (JavaScript would propagate NaN). -/
def mockCategoryStats (totalQuestions : Nat) (wqs : List WrongQuestion) :
    List (String × MockCategoryStat) :=
  let counts := wrongCountsByCategory wqs
  let perCategory := ceilDiv totalQuestions counts.length
  counts.map (fun cw =>
    (cw.1,
      { total := perCategory
        wrong := cw.2
        correct := perCategory - cw.2
        percentage := jsRound (((perCategory - cw.2 : Nat) : ℚ) / (perCategory : ℚ) * 100) }))

/-- Insert an entry into an ascending-by-percentage list, after every
entry it does not strictly precede (the stable position). -/
def insertByPercentage (x : String × MockCategoryStat) :
    List (String × MockCategoryStat) → List (String × MockCategoryStat)
  | [] => [x]
  | y :: ys =>
      if y.2.percentage ≤ x.2.percentage then y :: insertByPercentage x ys else x :: y :: ys

/-- `Object.entries(categoryStats).sort((a, b) => a.percentage -
b.percentage)`: JavaScript sort is stable, so this is the stable ascending
sort, computed here by stable insertion sort. -/
def sortByPercentage (l : List (String × MockCategoryStat)) : List (String × MockCategoryStat) :=
  l.foldl (fun acc x => insertByPercentage x acc) []

/-- The 70-character `=` separator line of the report templates. -/
def sepLine : String := String.mk (List.replicate 70 (Char.ofNat 61))

/-- `question.text.length > 100 ? text.substring(0, 100) + "..." : text`. -/
def questionPreview (t : String) : String :=
  if t.length > 100 then t.take 100 ++ "..." else t

/-- The wrong-question detail lines of one category section. -/
def wrongDetailBlock (ws : List WrongQDetail) : String :=
  String.join ((ws.enum).map (fun iw =>
    let n := iw.1 + 1
    let pv := questionPreview iw.2.text
    let ua := iw.2.userAnswer
    let ca := iw.2.correctAnswer
    s!"{n}. Question: {pv}\n   Your Answer: {ua}\n   Correct Answer: {ca}\n\n"))

/-- One category section of the question-by-question part of the report. -/
def categoryDetailBlock (groups : List (String × List WrongQDetail))
    (e : String × MockCategoryStat) : String :=
  let catU := e.1.toUpper
  let t := e.2.total
  let c := e.2.correct
  let w := e.2.wrong
  let p := e.2.percentage
  let head := s!"{catU}\nTotal Questions: {t}\nCorrect Answers: {c}\nWrong Answers: {w}\nAccuracy: {p}%\n\n"
  let ws := ((groups.find? (fun g => g.1 == e.1)).map (fun g => g.2)).getD []
  let body := if ws.length > 0 then "Wrong Questions Details:\n" ++ wrongDetailBlock ws else ""
  head ++ body ++ "\n"

/-- One category entry of the summary-by-category part of the report,
with its percentage-banded summary sentence (bands 80/60/40). -/
def categorySummaryBlock (e : String × MockCategoryStat) : String :=
  let catU := e.1.toUpper
  let cat := e.1
  let c := e.2.correct
  let t := e.2.total
  let p := e.2.percentage
  let head := s!"{catU}\nPerformance: {c} correct out of {t} questions ({p}%)\n"
  let summary :=
    if 80 ≤ p then
      s!"Summary: You solved {c} questions correctly in {cat}. Excellent performance!\n"
    else if 60 ≤ p then
      s!"Summary: You solved {c} questions correctly in {cat}. Good effort, but needs improvement.\n"
    else if 40 ≤ p then
      s!"Summary: You solved {c} questions correctly in {cat}. Requires focused practice.\n"
    else
      s!"Summary: You solved {c} questions correctly in {cat}. Critical area needing immediate attention.\n"
  head ++ summary ++ "\n"

/-- The report returned when no category was derived and there are no
wrong questions at all. -/
def mockEmptyAnalysis (testData : FieldAnalysisInput) (testTitle : String) : String :=
  let sc := testData.score
  let co := testData.correct
  let tq := testData.totalQuestions
  s!"QUESTION-BY-QUESTION ANALYSIS\n{testTitle}\n{sepLine}\n\nOverall Score: {sc}% ({co}/{tq})\n\nUnable to categorize questions. Please check the question content."

/-- The basic report of the `sortedCategories.length === 0 &&
wrongQuestions.length > 0` branch (unreachable in practice, since every
wrong question yields a category; embedded for fidelity). -/
def mockBasicAnalysis (testData : FieldAnalysisInput) (testTitle : String) : String :=
  let sc := testData.score
  let co := testData.correct
  let wr := testData.wrong
  let tq := testData.totalQuestions
  let header := s!"QUESTION-BY-QUESTION ANALYSIS\n{testTitle}\n{sepLine}\n\nOverall Score: {sc}% ({co}/{tq})\nTotal Questions: {tq}\nCorrect Answers: {co}\nWrong Answers: {wr}\n\nWRONG QUESTIONS DETAILS:\n"
  let details := String.join ((testData.wrongQuestions.enum).map (fun iw =>
    let n := iw.1 + 1
    let pv := questionPreview iw.2.text
    let ua := iw.2.userAnswer
    let ca := iw.2.correctAnswer
    s!"\n{n}. Question: {pv}\n   Your Answer: {ua}\n   Correct Answer: {ca}\n"))
  let tail := s!"\n\nSUMMARY BY CATEGORY\n{sepLine}\n\nOverall Performance: {co} correct out of {tq} questions ({sc}%)\nSummary: You need to review all concepts and focus on improving your understanding of the fundamentals.\n\nAREAS REQUIRING MOST FOCUS\n{sepLine}\n\n1. COMPREHENSIVE REVIEW NEEDED\n   - Performance: {sc}% ({co}/{tq})\n   - Action: Start with fundamentals across all topics. Practice daily with focused attention.\n   - Focus: Understand core concepts before attempting complex problems.\n\nDAILY STUDY RECOMMENDATION\n- Dedicate 60 minutes daily to revision and practice\n- 30 minutes for concept building\n- 30 minutes for practice problems\n- Expected improvement: 10-15% in 1 week with consistent effort"
  header ++ details ++ tail

/-- The full multi-section report for a nonempty sorted category list. -/
def mockFullAnalysis (testTitle : String) (groups : List (String × List WrongQDetail))
    (sorted : List (String × MockCategoryStat)) (weakest strongest : String × MockCategoryStat) :
    String :=
  let header := s!"QUESTION-BY-QUESTION ANALYSIS\n{testTitle}\n{sepLine}\n\n"
  let detailed := String.join (sorted.map (categoryDetailBlock groups))
  let summaryHeader := s!"SUMMARY BY CATEGORY\n{sepLine}\n\n"
  let summaries := String.join (sorted.map categorySummaryBlock)
  let overallHeader := s!"OVERALL PERFORMANCE SUMMARY\n{sepLine}\n\nCorrect Answers by Category:\n"
  let correctLines := String.join (sorted.map (fun e =>
    let cat := e.1
    let c := e.2.correct
    s!"{cat}: {c} correct\n"))
  let wrongLines := String.join (sorted.map (fun e =>
    let cat := e.1
    let w := e.2.wrong
    s!"{cat}: {w} wrong\n"))
  let wkCat := weakest.1
  let wkP := weakest.2.percentage
  let wkC := weakest.2.correct
  let wkT := weakest.2.total
  let stCat := strongest.1
  let stP := strongest.2.percentage
  let stC := strongest.2.correct
  let stT := strongest.2.total
  let focus := s!"\nAREAS REQUIRING MOST FOCUS\n{sepLine}\n\n1. CRITICAL FOCUS: {wkCat}\n   - Performance: {wkP}% ({wkC}/{wkT})\n   - Action: Start with fundamentals. Practice 40-50 questions daily in this category.\n   - Focus: Understand basic concepts before attempting complex problems.\n\n2. IMPROVEMENT NEEDED: \n   - Focus on categories with less than 70% accuracy.\n   - Practice similar questions to the ones you got wrong.\n   - Review concepts for each wrong answer.\n\n3. MAINTAIN STRENGTH: {stCat}\n   - Performance: {stP}% ({stC}/{stT})\n   - Continue regular practice to maintain this level.\n\nDAILY STUDY RECOMMENDATION\n- Dedicate 60 minutes daily to {wkCat}\n- 30 minutes for other weak categories\n- 15 minutes for maintenance practice\n- Expected improvement: 15-20% in 2-3 weeks with consistent effort"
  header ++ detailed ++ summaryHeader ++ summaries ++ overallHeader ++ correctLines
    ++ "\nWrong Answers by Category:\n" ++ wrongLines ++ focus

/-- `generateMockCategoryWiseAnalysis(testData, testTitle)`: the
deterministic fallback report. -/
def generateMockCategoryWiseAnalysis (testData : FieldAnalysisInput) (testTitle : String) :
    String :=
  let groups := categorizedWrongQuestions testData.wrongQuestions
  let sorted := sortByPercentage (mockCategoryStats testData.totalQuestions testData.wrongQuestions)
  match sorted with
  | [] =>
      if testData.wrongQuestions.length > 0 then mockBasicAnalysis testData testTitle
      else mockEmptyAnalysis testData testTitle
  | first :: rest =>
      mockFullAnalysis testTitle groups (first :: rest) first
        ((first :: rest).getLast (List.cons_ne_nil first rest))

/-- `generateDetailedFieldAnalysis(testData, testTitle)`: the AI
collaborator is external, so it enters the embedding as the configured
API key (absent or empty means unavailable) and the outcome of the
`model.generateContent` call, `Except.error` standing for any exception
thrown inside the `try` block. -/
def generateDetailedFieldAnalysis (geminiApiKey : Option String)
    (aiResponse : Except String String) (testData : FieldAnalysisInput) (testTitle : String) :
    String :=
  match geminiApiKey with
  | none => generateMockCategoryWiseAnalysis testData testTitle
  | some key =>
      if key = "" then generateMockCategoryWiseAnalysis testData testTitle
      else
        match aiResponse with
        | Except.ok responseText => responseText.trim
        | Except.error _ => generateMockCategoryWiseAnalysis testData testTitle

/-- A concrete `generateDetailedFieldAnalysis` input with no wrong
questions. -/
def sampleFieldInput : FieldAnalysisInput :=
  { score := 40, totalQuestions := 5, correct := 2, wrong := 3,
    categoryBreakdown := [], wrongQuestions := [] }

/-! ## Theorems -/

theorem jsNumOrZero_eq (p : ℚ) : jsNumOrZero p = p := by
  unfold jsNumOrZero
  split_ifs with h
  · exact h.symm
  · rfl

theorem findIdx?_eq_none_of_not_mem {s : String} {l : List String} (h : s ∉ l) :
    l.findIdx? (fun x => x == s) = none := by
  induction l with
  | nil => rfl
  | cons a l ih =>
      have ha : (a == s) = false := by
        refine beq_eq_false_iff_ne.mpr fun e => h ?_
        exact e ▸ List.mem_cons_self a l
      have hm : s ∉ l := fun m => h (List.mem_cons_of_mem a m)
      simp [List.findIdx?_cons, ha, ih hm]

/-- C1: `calculatePassStatus` returns `true` exactly when the
company/stage pair is one of the six listed threshold rules and the
corresponding threshold is met (TCS foundation 60%, TCS advanced 65%,
TCS coding raw score 2, Wipro aptitude 65%, Wipro essay 70%, Wipro coding
raw score 1), and `false` for every other company/stage combination. -/
theorem calculatePassStatus_iff (c s : String) (p r : ℚ) :
    calculatePassStatus c s p r = true ↔
      ((c = "TCS" ∧ s = "foundation" ∧ 60 ≤ p) ∨
       (c = "TCS" ∧ s = "advanced" ∧ 65 ≤ p) ∨
       (c = "TCS" ∧ s = "coding" ∧ 2 ≤ r) ∨
       (c = "Wipro" ∧ s = "aptitude" ∧ 65 ≤ p) ∨
       (c = "Wipro" ∧ s = "essay" ∧ 70 ≤ p) ∨
       (c = "Wipro" ∧ s = "coding" ∧ 1 ≤ r)) := by
  unfold calculatePassStatus
  split_ifs <;> simp_all

/-- C2: with `passed = false`, `determineNextStage` returns the current
stage unchanged; with `passed = true` it maps every stage of a company's
ordered list to the immediately following stage, with the last element
mapping to `completed`. -/
theorem determineNextStage_spec :
    (∀ company currentStage : String,
      determineNextStage company currentStage false = currentStage) ∧
    (determineNextStage "TCS" "foundation" true = "advanced" ∧
     determineNextStage "TCS" "advanced" true = "coding" ∧
     determineNextStage "TCS" "coding" true = "interview" ∧
     determineNextStage "TCS" "interview" true = "completed" ∧
     determineNextStage "TCS" "completed" true = "completed" ∧
     determineNextStage "Wipro" "aptitude" true = "essay" ∧
     determineNextStage "Wipro" "essay" true = "coding" ∧
     determineNextStage "Wipro" "coding" true = "voice" ∧
     determineNextStage "Wipro" "voice" true = "interview" ∧
     determineNextStage "Wipro" "interview" true = "completed" ∧
     determineNextStage "Wipro" "completed" true = "completed") :=
  ⟨fun _ _ => rfl, by decide⟩

/-- C10: with `passed = true` and a current stage that does not occur in
the known company's ordered list, `determineNextStage` returns the first
stage of that list (`indexOf` yields `-1`, so the successor index is 0);
in particular `determineNextStage "TCS" "bogus" true = "foundation"`. -/
theorem determineNextStage_unknownStage :
    (∀ s : String, s ∉ tcsStages → determineNextStage "TCS" s true = "foundation") ∧
    (∀ s : String, s ∉ wiproStages → determineNextStage "Wipro" s true = "aptitude") ∧
    determineNextStage "TCS" "bogus" true = "foundation" := by
  refine ⟨fun s hs => ?_, fun s hs => ?_, by decide⟩
  · have hn := findIdx?_eq_none_of_not_mem hs
    unfold determineNextStage jsNextStage
    rw [hn]
    rfl
  · have hn := findIdx?_eq_none_of_not_mem hs
    unfold determineNextStage jsNextStage
    rw [hn]
    rfl

/-- C4: `assignTrack` agrees everywhere with the specification's
description: TCS from the coding stage (`Digital` at 83%+, otherwise
`Ninja`, also with no coding stage), Wipro from the average percentage
over the given stages (`Turbo` at 80%+, otherwise `Elite`), and
`Standard` for every other company. -/
theorem assignTrack_eq_spec (company : String) (stages : List StageResult) :
    assignTrack company stages = assignTrackSpec company stages := by
  unfold assignTrack assignTrackSpec
  simp only [jsNumOrZero_eq]
  split_ifs <;> try rfl
  cases stages.find? (fun s => s.stageName == "coding") with
  | none => rfl
  | some cs =>
      dsimp only
      split_ifs <;> rfl

/-- C6 (amended): `isLastStage` returns `true` iff the company is TCS or
Wipro and the stage is `interview` or `completed`; for an unknown company
it fails closed. -/
theorem isLastStage_iff (company stage : String) :
    isLastStage company stage = true ↔
      ((company = "TCS" ∨ company = "Wipro") ∧
       (stage = "interview" ∨ stage = "completed")) := by
  unfold isLastStage
  split_ifs <;> simp_all

/-- C6 counterexample: the claim as stated quantifies over every company
string, but `isLastStage "Acme" "interview"` is `false` while the claimed
equivalence would make it `true`. -/
theorem isLastStage_counterexample :
    ¬(isLastStage "Acme" "interview" = true ↔
      ("interview" = "interview" ∨ "interview" = "completed")) := by decide

/-- C5 counterexample: on a three-question submission with one correct
answer the stored percentage is the exact value `100/3`, not the rounded
integer `33` the claim asserts. -/
theorem storedStagePercentage_counterexample :
    storedStagePercentage sampleAnswers sampleQuestions ≠
      ((jsRound (((calculateDetailedScore sampleAnswers sampleQuestions).totalCorrect : ℚ) /
          ((calculateDetailedScore sampleAnswers sampleQuestions).totalQuestions : ℚ) * 100) : ℤ) :
        ℚ) := by
  have h1 : (calculateDetailedScore sampleAnswers sampleQuestions).totalCorrect = 1 := rfl
  have h2 : (calculateDetailedScore sampleAnswers sampleQuestions).totalQuestions = 3 := rfl
  have hL : storedStagePercentage sampleAnswers sampleQuestions = 100 / 3 := by
    unfold storedStagePercentage stagePercentage
    rw [h1, h2]
    norm_num
  have hR : jsRound (((calculateDetailedScore sampleAnswers sampleQuestions).totalCorrect : ℚ) /
      ((calculateDetailedScore sampleAnswers sampleQuestions).totalQuestions : ℚ) * 100) = 33 := by
    rw [h1, h2]
    unfold jsRound
    rw [Int.floor_eq_iff]
    constructor <;> norm_num
  rw [hL, hR]
  norm_num

/-- C5 (amended): for a submission with at least one question the stored
stage percentage equals the exact, unrounded value
`totalCorrect * 100 / totalQuestions` (only the per-category percentages
are rounded); with zero questions the stored percentage is `0`. -/
theorem storedStagePercentage_exact (answers : Answers) (questions : List Question) :
    (questions ≠ [] →
      storedStagePercentage answers questions =
        ((calculateDetailedScore answers questions).totalCorrect : ℚ) * 100 /
          ((calculateDetailedScore answers questions).totalQuestions : ℚ)) ∧
    (questions = [] → storedStagePercentage answers questions = 0) := by
  constructor
  · intro h
    have hl : 0 < questions.length := List.length_pos.mpr h
    have ht : (calculateDetailedScore answers questions).totalQuestions = questions.length := rfl
    unfold storedStagePercentage stagePercentage
    rw [ht, if_pos hl, div_mul_eq_mul_div]
  · intro h
    subst h
    rfl

/-- C5 witness: the amended statement at the concrete three-question
submission. -/
theorem storedStagePercentage_exact_witness :
    sampleQuestions ≠ [] ∧
    storedStagePercentage sampleAnswers sampleQuestions =
      ((calculateDetailedScore sampleAnswers sampleQuestions).totalCorrect : ℚ) * 100 /
        ((calculateDetailedScore sampleAnswers sampleQuestions).totalQuestions : ℚ) :=
  ⟨by decide, (storedStagePercentage_exact sampleAnswers sampleQuestions).1 (by decide)⟩

theorem scoreLoop_totalCorrect (answers : Answers) (qs : List Question) :
    ∀ tc bd ws, (scoreLoop answers tc bd ws qs).1 =
      tc + (qs.filter (fun q => answerIsCorrect answers q)).length := by
  induction qs with
  | nil => intro tc bd ws; simp [scoreLoop]
  | cons q qs ih =>
      intro tc bd ws
      cases h : answerIsCorrect answers q
      case false => simp [scoreLoop, h, ih, List.filter_cons]
      case true =>
        simp [scoreLoop, h, ih, List.filter_cons]
        omega

theorem scoreLoop_wrongQuestions (answers : Answers) (qs : List Question) :
    ∀ tc bd ws, (scoreLoop answers tc bd ws qs).2.2 =
      ws ++ (qs.filter (fun q => !answerIsCorrect answers q)).map (wrongEntry answers) := by
  induction qs with
  | nil => intro tc bd ws; simp [scoreLoop]
  | cons q qs ih =>
      intro tc bd ws
      cases h : answerIsCorrect answers q <;>
        simp [scoreLoop, h, ih, List.filter_cons]

/-- C3: `calculateDetailedScore` counts exactly the questions whose first
correct option's text equals the submitted answer, appends exactly the
other questions (in order) to `wrongQuestions`, records a missing answer
as `Not answered`, and defaults an absent category to `General`. -/
theorem calculateDetailedScore_spec (answers : Answers) (questions : List Question) :
    (calculateDetailedScore answers questions).totalCorrect =
      (questions.filter (fun q => answerIsCorrect answers q)).length ∧
    (calculateDetailedScore answers questions).wrongQuestions =
      (questions.filter (fun q => !answerIsCorrect answers q)).map (wrongEntry answers) ∧
    (∀ q : Question, answerIsCorrect answers q = true ↔
      ∃ opt, firstCorrectOption q = some opt ∧ lookupAnswer answers q.id = some opt.text) ∧
    (∀ q : Question, lookupAnswer answers q.id = none →
      (wrongEntry answers q).userAnswer = "Not answered") ∧
    (∀ q : Question, q.category = none → (wrongEntry answers q).category = "General") := by
  refine ⟨?_, ?_, fun q => ?_, fun q h => ?_, fun q h => ?_⟩
  · show (scoreLoop answers 0 [] [] questions).1 = _
    rw [scoreLoop_totalCorrect]
    omega
  · show (scoreLoop answers 0 [] [] questions).2.2 = _
    rw [scoreLoop_wrongQuestions]
    simp
  · unfold answerIsCorrect
    cases h : firstCorrectOption q with
    | none => simp
    | some opt => simp [beq_iff_eq]
  · show jsStrOr (lookupAnswer answers q.id) "Not answered" = _
    rw [h]
    rfl
  · show jsStrOr q.category "General" = _
    rw [h]
    rfl

/-- C3 witness: the unanswered second sample question is recorded with
`Not answered`. -/
theorem calculateDetailedScore_spec_witness :
    lookupAnswer sampleAnswers "q2" = none ∧
    (wrongEntry sampleAnswers
      { id := "q2", text := "three plus three", category := some "Quant",
        options := [{ text := "6", isCorrect := true },
                    { text := "7", isCorrect := false }] }).userAnswer = "Not answered" :=
  ⟨by decide,
   (calculateDetailedScore_spec sampleAnswers sampleQuestions).2.2.2.1
     { id := "q2", text := "three plus three", category := some "Quant",
       options := [{ text := "6", isCorrect := true },
                   { text := "7", isCorrect := false }] } (by decide)⟩

theorem bumpCategory_sumTotals (bd : List (String × Nat × Nat)) (cat : String) (corr : Bool) :
    ((bumpCategory bd cat corr).map (fun e => e.2.2)).sum =
      (bd.map (fun e => e.2.2)).sum + 1 := by
  induction bd with
  | nil => simp [bumpCategory]
  | cons e bd ih =>
      obtain ⟨c, k, t⟩ := e
      by_cases h : c = cat <;> simp [bumpCategory, h, ih] <;> omega

theorem scoreLoop_sumTotals (answers : Answers) (qs : List Question) :
    ∀ tc bd ws, ((scoreLoop answers tc bd ws qs).2.1.map (fun e => e.2.2)).sum =
      (bd.map (fun e => e.2.2)).sum + qs.length := by
  induction qs with
  | nil => intro tc bd ws; simp [scoreLoop]
  | cons q qs ih =>
      intro tc bd ws
      simp [scoreLoop, ih, bumpCategory_sumTotals]
      omega

theorem bumpCategory_bounded {bd : List (String × Nat × Nat)}
    (h : ∀ e ∈ bd, e.2.1 ≤ e.2.2) (cat : String) (corr : Bool) :
    ∀ e ∈ bumpCategory bd cat corr, e.2.1 ≤ e.2.2 := by
  induction bd with
  | nil =>
      intro e he
      simp [bumpCategory] at he
      subst he
      cases corr <;> simp
  | cons hd bd ih =>
      obtain ⟨c, k, t⟩ := hd
      have hhd : k ≤ t := h (c, k, t) (List.mem_cons_self _ _)
      have htl : ∀ e ∈ bd, e.2.1 ≤ e.2.2 := fun e he => h e (List.mem_cons_of_mem _ he)
      intro e he
      by_cases hc : c = cat
      · simp [bumpCategory, hc] at he
        rcases he with he | he
        · subst he
          cases corr <;> simp <;> omega
        · exact htl e he
      · simp [bumpCategory, hc] at he
        rcases he with he | he
        · subst he
          exact hhd
        · exact ih htl e he

theorem scoreLoop_bounded (answers : Answers) (qs : List Question) :
    ∀ tc bd ws, (∀ e ∈ bd, e.2.1 ≤ e.2.2) →
      ∀ e ∈ (scoreLoop answers tc bd ws qs).2.1, e.2.1 ≤ e.2.2 := by
  induction qs with
  | nil => intro tc bd ws h; simpa [scoreLoop] using h
  | cons q qs ih =>
      intro tc bd ws h
      simp only [scoreLoop]
      exact ih _ _ _ (bumpCategory_bounded h _ _)

theorem jsRound_nonneg {x : ℚ} (h : 0 ≤ x) : 0 ≤ jsRound x := by
  unfold jsRound
  refine Int.le_floor.mpr ?_
  push_cast
  linarith

theorem jsRound_le_100 {x : ℚ} (h : x ≤ 100) : jsRound x ≤ 100 := by
  unfold jsRound
  have hlt : x + 1 / 2 < ((101 : ℤ) : ℚ) := by push_cast; linarith
  have h2 := Int.floor_lt.mpr hlt
  omega

/-- C7: in every category breakdown produced by `calculateDetailedScore`
the per-category totals sum to the number of questions scored, and every
category's percentage lies between 0 and 100 and equals
`Math.round(correct / total * 100)` (0 when the total is 0). -/
theorem categoryBreakdown_invariants (answers : Answers) (questions : List Question) :
    (((calculateDetailedScore answers questions).categoryBreakdown.map
        (fun e => e.2.total)).sum = (calculateDetailedScore answers questions).totalQuestions) ∧
    (∀ e ∈ (calculateDetailedScore answers questions).categoryBreakdown,
      0 ≤ e.2.percentage ∧ e.2.percentage ≤ 100 ∧
      e.2.percentage =
        (if 0 < e.2.total then jsRound ((e.2.correct : ℚ) / (e.2.total : ℚ) * 100) else 0)) := by
  constructor
  · show (((scoreLoop answers 0 [] [] questions).2.1.map finalizeCategory).map
        (fun e => e.2.total)).sum = questions.length
    rw [List.map_map]
    have : ((fun e : String × CategoryStat => e.2.total) ∘ finalizeCategory) =
        fun e : String × Nat × Nat => e.2.2 := rfl
    rw [this, scoreLoop_sumTotals]
    simp
  · intro e he
    have he' : e ∈ (scoreLoop answers 0 [] [] questions).2.1.map finalizeCategory := he
    obtain ⟨e0, he0, rfl⟩ := List.mem_map.mp he'
    have hb : e0.2.1 ≤ e0.2.2 :=
      scoreLoop_bounded answers questions 0 [] [] (by simp) e0 he0
    dsimp only [finalizeCategory]
    by_cases ht : 0 < e0.2.2
    · have htp : (0 : ℚ) < (e0.2.2 : ℚ) := by exact_mod_cast ht
      have hx0 : (0 : ℚ) ≤ (e0.2.1 : ℚ) / (e0.2.2 : ℚ) * 100 := by positivity
      have hx100 : (e0.2.1 : ℚ) / (e0.2.2 : ℚ) * 100 ≤ 100 := by
        have h1 : (e0.2.1 : ℚ) / (e0.2.2 : ℚ) ≤ 1 :=
          (div_le_one htp).mpr (by exact_mod_cast hb)
        nlinarith
      rw [if_pos ht]
      exact ⟨jsRound_nonneg hx0, jsRound_le_100 hx100, rfl⟩
    · rw [if_neg ht]
      norm_num

/-- C7 witness: the `Quant` entry of the concrete sample breakdown. -/
theorem categoryBreakdown_invariants_witness :
    (("Quant", ({ correct := 1, total := 2, percentage := 50 } : CategoryStat)) ∈
      (calculateDetailedScore sampleAnswers sampleQuestions).categoryBreakdown) ∧
    ((0 : ℤ) ≤ 50 ∧ (50 : ℤ) ≤ 100 ∧
      (50 : ℤ) =
        (if 0 < (2 : ℕ) then jsRound (((1 : ℕ) : ℚ) / ((2 : ℕ) : ℚ) * 100) else 0)) := by
  have hloop : (scoreLoop sampleAnswers 0 [] [] sampleQuestions).2.1 =
      [("Quant", (1, 2)), ("General", (0, 1))] := rfl
  have hj1 : jsRound (((2 : ℚ))⁻¹ * 100) = 50 := by
    unfold jsRound
    rw [Int.floor_eq_iff]
    constructor <;> norm_num
  have hj0 : jsRound (0 : ℚ) = 0 := by
    unfold jsRound
    rw [Int.floor_eq_iff]
    constructor <;> norm_num
  have hmem : (calculateDetailedScore sampleAnswers sampleQuestions).categoryBreakdown =
      [("Quant", { correct := 1, total := 2, percentage := 50 }),
       ("General", { correct := 0, total := 1, percentage := 0 })] := by
    show (scoreLoop sampleAnswers 0 [] [] sampleQuestions).2.1.map finalizeCategory = _
    rw [hloop]
    simp [finalizeCategory, hj1, hj0]
  exact ⟨by rw [hmem]; exact List.mem_cons_self _ _,
    (categoryBreakdown_invariants sampleAnswers sampleQuestions).2
      ("Quant", { correct := 1, total := 2, percentage := 50 })
      (by rw [hmem]; exact List.mem_cons_self _ _)⟩

/-- C8: when every keyword score of the lowercased text is zero,
`categorizeQuestionByContent` falls back to `General Reasoning` for texts
under 100 characters, then `Verbal & Reading` for texts containing
`passage` or `read`, and `General Knowledge` otherwise; empty text yields
`General Knowledge` immediately; and the concrete profit/percentage
question is categorized as `Quantitative Aptitude`. -/
theorem categorizeQuestionByContent_spec :
    (∀ q : String, q ≠ "" →
      countKeywordMatches quantKeywords (strToLower q) = 0 →
      countKeywordMatches logicKeywords (strToLower q) = 0 →
      countKeywordMatches verbalKeywords (strToLower q) = 0 →
      countKeywordMatches codingKeywords (strToLower q) = 0 →
      countKeywordMatches dataKeywords (strToLower q) = 0 →
      categorizeQuestionByContent q =
        (if (strToLower q).length < 100 then "General Reasoning"
         else if strIncludes (strToLower q) "passage" || strIncludes (strToLower q) "read" then
           "Verbal & Reading"
         else "General Knowledge")) ∧
    categorizeQuestionByContent "" = "General Knowledge" ∧
    categorizeQuestionByContent "Find the profit percentage if cost is 200 and sell is 250" =
      "Quantitative Aptitude" := by
  refine ⟨fun q hq h1 h2 h3 h4 h5 => ?_, rfl, by decide⟩
  unfold categorizeQuestionByContent
  rw [if_neg hq]
  simp [categoryScores, pickMax, h1, h2, h3, h4, h5]

/-- C8 witness: a keyword-free short text falls back to
`General Reasoning` through the first claim conjunct. -/
theorem categorizeQuestionByContent_spec_witness :
    ("hello there my friend" ≠ "" ∧
      countKeywordMatches quantKeywords (strToLower "hello there my friend") = 0) ∧
    categorizeQuestionByContent "hello there my friend" =
      (if (strToLower "hello there my friend").length < 100 then "General Reasoning"
       else if strIncludes (strToLower "hello there my friend") "passage" ||
           strIncludes (strToLower "hello there my friend") "read" then "Verbal & Reading"
       else "General Knowledge") :=
  ⟨⟨by decide, by decide⟩,
   categorizeQuestionByContent_spec.1 "hello there my friend" (by decide) (by decide) (by decide)
     (by decide) (by decide) (by decide)⟩

/-- C9: when the AI collaborator is unavailable (missing or empty API
key) or its call throws, `generateDetailedFieldAnalysis` returns exactly
the deterministic fallback report of `generateMockCategoryWiseAnalysis`
on the same input; the embedding is a total function, so no AI-layer
failure propagates to the caller. -/
theorem generateDetailedFieldAnalysis_fallback (geminiApiKey : Option String)
    (aiResponse : Except String String) (testData : FieldAnalysisInput) (testTitle : String)
    (h : geminiApiKey = none ∨ geminiApiKey = some "" ∨ ∃ e, aiResponse = Except.error e) :
    generateDetailedFieldAnalysis geminiApiKey aiResponse testData testTitle =
      generateMockCategoryWiseAnalysis testData testTitle := by
  rcases h with h | h | ⟨e, h⟩
  · subst h
    rfl
  · subst h
    rfl
  · subst h
    cases geminiApiKey with
    | none => rfl
    | some key => by_cases hk : key = "" <;> simp [generateDetailedFieldAnalysis, hk]

/-- C9 witness: with no API key configured and a failing AI call, the
function returns the deterministic fallback on a concrete input. -/
theorem generateDetailedFieldAnalysis_fallback_witness :
    ((none : Option String) = none ∨ (none : Option String) = some "" ∨
      ∃ e, (Except.error "AI call failed" : Except String String) = Except.error e) ∧
    generateDetailedFieldAnalysis none (Except.error "AI call failed") sampleFieldInput
        "Sample Test" =
      generateMockCategoryWiseAnalysis sampleFieldInput "Sample Test" :=
  ⟨Or.inl rfl,
   generateDetailedFieldAnalysis_fallback none (Except.error "AI call failed") sampleFieldInput
     "Sample Test" (Or.inl rfl)⟩

/-- C10 witness: `bogus` occurs in neither list, and the theorem yields
the first stage of the TCS pipeline for it. -/
theorem determineNextStage_unknownStage_witness :
    ("bogus" ∉ tcsStages) ∧ determineNextStage "TCS" "bogus" true = "foundation" :=
  ⟨by decide, determineNextStage_unknownStage.1 "bogus" (by decide)⟩
